import Mathlib

/-
  Shallow embedding of src/deploy.py.

  The script reads a template file, submits a CloudFormation create_stack
  request, blocks on the stack_create_complete waiter, and prints a success
  line.  The external collaborators (local filesystem, remote service,
  waiter) are modelled as an explicit environment; deploy_stack is a pure
  function from the environment and its two string arguments to the ordered
  trace of observable side effects together with an Except result, semantics
  of Python exception propagation.
-/

namespace IacDeploy

/-- A create_stack request as assembled at src/deploy.py lines 9-13:
keyword arguments StackName, TemplateBody and Capabilities. -/
structure CreateStackRequest where
  StackName : String
  TemplateBody : String
  Capabilities : List String
  deriving DecidableEq, Repr

/-- The remote service reply to an accepted create_stack call; boto3 returns
a dictionary whose interesting field is the service-assigned StackId. -/
structure CreateStackResponse where
  StackId : String
  deriving DecidableEq, Repr

/-- Observable side effects of one run of the script, in order. -/
inductive Event where
  | fileOpen (path : String)
  | fileRead (path : String)
  | fileClose (path : String)
  | clientConstruct
  | createStack (req : CreateStackRequest)
  | statusQuery (stackName : String)
  | consolePrint (line : String)
  deriving DecidableEq, Repr

/-- Errors that can propagate out of deploy_stack: a local I/O error from
the open/read of the template, a rejection of the creation request by the
remote service, or a failure of the waiter (failure terminal state or
polling timeout). -/
inductive DeployError where
  | ioError (path : String)
  | createRejected (msg : String)
  | waitFailed (msg : String)
  deriving DecidableEq, Repr

/-- Behaviour of the boto3 stack_create_complete waiter on one stack name:
it issues some number of status queries and then either returns normally
(success terminal state) or raises (failure terminal state or timeout).
The polling policy is owned by the client library, so the count is a free
parameter of the environment. -/
inductive WaitOutcome where
  | success (polls : Nat)
  | failure (polls : Nat) (msg : String)
  deriving DecidableEq, Repr

/-- Number of status queries the waiter issues. -/
def WaitOutcome.polls : WaitOutcome → Nat
  | .success p => p
  | .failure p _ => p

/-- Local filesystem: whether open(path) succeeds, and what file.read()
yields (none models a read that raises after a successful open). -/
structure FileSys where
  openFile : String → Bool
  readFile : String → Option String

/-- The environment of one invocation: the filesystem and the remote
service behaviour (create_stack verdict per request, waiter behaviour per
stack name), fixed at invocation time. -/
structure CloudEnv where
  fs : FileSys
  create_stack : CreateStackRequest → Except String CreateStackResponse
  waitBehavior : String → WaitOutcome

/-- The success line printed at src/deploy.py line 18. -/
def successLine (stack_name : String) : String :=
  "Stack " ++ stack_name ++ " created successfully."

/-- Embedding of deploy_stack (src/deploy.py lines 4-18).

Step 1 (lines 5-6): `with open(template_file) as file: template_body = file.read()`.
If the open fails the IOError propagates with no events; if the read fails
after a successful open, the with-statement still closes the handle before
the error propagates.
Step 2 (line 8): the boto3 client is constructed.
Step 3 (lines 9-13): create_stack is called with StackName, TemplateBody
and Capabilities=[CAPABILITY_IAM]; a rejection propagates.
Step 4 (lines 15-16): the waiter polls the stack status until a terminal
state; a failure terminal state or timeout propagates.
Step 5 (line 18): the success line is printed. -/
def deploy_stack (env : CloudEnv) (stack_name template_file : String) :
    List Event × Except DeployError Unit :=
  if env.fs.openFile template_file then
    match env.fs.readFile template_file with
    | none =>
        ([Event.fileOpen template_file, Event.fileClose template_file],
         Except.error (DeployError.ioError template_file))
    | some template_body =>
        let readEvents : List Event :=
          [Event.fileOpen template_file, Event.fileRead template_file,
           Event.fileClose template_file]
        let req : CreateStackRequest :=
          { StackName := stack_name, TemplateBody := template_body,
            Capabilities := ["CAPABILITY_IAM"] }
        match env.create_stack req with
        | Except.error msg =>
            (readEvents ++ [Event.clientConstruct, Event.createStack req],
             Except.error (DeployError.createRejected msg))
        | Except.ok _response =>
            match env.waitBehavior stack_name with
            | WaitOutcome.failure polls msg =>
                (readEvents ++ [Event.clientConstruct, Event.createStack req]
                   ++ List.replicate polls (Event.statusQuery stack_name),
                 Except.error (DeployError.waitFailed msg))
            | WaitOutcome.success polls =>
                (readEvents ++ [Event.clientConstruct, Event.createStack req]
                   ++ List.replicate polls (Event.statusQuery stack_name)
                   ++ [Event.consolePrint (successLine stack_name)],
                 Except.ok ())
  else
    ([], Except.error (DeployError.ioError template_file))

/-- The argument pairs deploy_stack is invoked with by the
`if __name__ == main` block (src/deploy.py lines 20-21): a single call
with two hard-coded literals. -/
def main_invocations : List (String × String) :=
  [("my-iac-stack", "cloudformation/main.yaml")]

/-- Embedding of the process entry point (src/deploy.py lines 20-21). -/
def main_block (env : CloudEnv) : List Event × Except DeployError Unit :=
  deploy_stack env "my-iac-stack" "cloudformation/main.yaml"

/-- Event classifiers used to count side effects. -/
def isFileRead : Event → Bool
  | .fileRead _ => true
  | _ => false

def isCreateStack : Event → Bool
  | .createStack _ => true
  | _ => false

def isStatusQuery : Event → Bool
  | .statusQuery _ => true
  | _ => false

def isConsolePrint : Event → Bool
  | .consolePrint _ => true
  | _ => false

/-- Concrete environment where every step succeeds (waiter polls twice). -/
def sampleEnv : CloudEnv where
  fs := { openFile := fun _ => true, readFile := fun _ => some "Resources" }
  create_stack := fun req => Except.ok { StackId := "arn-" ++ req.StackName }
  waitBehavior := fun _ => WaitOutcome.success 2

/-- Concrete environment where the template file cannot be opened. -/
def noFileEnv : CloudEnv where
  fs := { openFile := fun _ => false, readFile := fun _ => none }
  create_stack := fun req => Except.ok { StackId := "arn-" ++ req.StackName }
  waitBehavior := fun _ => WaitOutcome.success 1

/-- Concrete environment where the remote service rejects every creation
request (for example with a duplicate-name error). -/
def rejectEnv : CloudEnv where
  fs := { openFile := fun _ => true, readFile := fun _ => some "Resources" }
  create_stack := fun _ => Except.error "AlreadyExistsException"
  waitBehavior := fun _ => WaitOutcome.success 1

/-- Concrete environment where the open succeeds but the read raises. -/
def badReadEnv : CloudEnv where
  fs := { openFile := fun _ => true, readFile := fun _ => none }
  create_stack := fun req => Except.ok { StackId := "arn-" ++ req.StackName }
  waitBehavior := fun _ => WaitOutcome.success 1

/-- Sample creation request, as deploy_stack assembles it in sampleEnv. -/
def sampleReq : CreateStackRequest :=
  { StackName := "my-iac-stack", TemplateBody := "Resources",
    Capabilities := ["CAPABILITY_IAM"] }

/-- countP over a replicated list. -/
theorem countP_replicate_self (p : Event → Bool) (a : Event) (n : Nat) :
    List.countP p (List.replicate n a) = if p a then n else 0 := by
  induction n with
  | zero => simp
  | succ k ih =>
      rw [List.replicate_succ, List.countP_cons, ih]
      cases hpa : p a <;> simp [hpa]

/-- filter drops a replicated list of elements not satisfying the predicate. -/
theorem filter_replicate_not (p : Event → Bool) (a : Event) (n : Nat)
    (h : p a = false) : List.filter p (List.replicate n a) = [] := by
  induction n with
  | zero => rfl
  | succ k ih => rw [List.replicate_succ, List.filter_cons, h]; exact ih

/-- Exhaustive description of the five possible runs of deploy_stack:
open fails; read fails; creation rejected; wait fails; full success. -/
theorem deploy_stack_cases (env : CloudEnv) (n f : String) :
    (env.fs.openFile f = false ∧
      deploy_stack env n f = ([], Except.error (DeployError.ioError f))) ∨
    (env.fs.openFile f = true ∧ env.fs.readFile f = none ∧
      deploy_stack env n f
        = ([Event.fileOpen f, Event.fileClose f],
           Except.error (DeployError.ioError f))) ∨
    (∃ body msg, env.fs.openFile f = true ∧ env.fs.readFile f = some body ∧
      env.create_stack
          { StackName := n, TemplateBody := body,
            Capabilities := ["CAPABILITY_IAM"] } = Except.error msg ∧
      deploy_stack env n f
        = ([Event.fileOpen f, Event.fileRead f, Event.fileClose f,
            Event.clientConstruct,
            Event.createStack
              { StackName := n, TemplateBody := body,
                Capabilities := ["CAPABILITY_IAM"] }],
           Except.error (DeployError.createRejected msg))) ∨
    (∃ body resp polls msg,
      env.fs.openFile f = true ∧ env.fs.readFile f = some body ∧
      env.create_stack
          { StackName := n, TemplateBody := body,
            Capabilities := ["CAPABILITY_IAM"] } = Except.ok resp ∧
      env.waitBehavior n = WaitOutcome.failure polls msg ∧
      deploy_stack env n f
        = ([Event.fileOpen f, Event.fileRead f, Event.fileClose f,
            Event.clientConstruct,
            Event.createStack
              { StackName := n, TemplateBody := body,
                Capabilities := ["CAPABILITY_IAM"] }]
             ++ List.replicate polls (Event.statusQuery n),
           Except.error (DeployError.waitFailed msg))) ∨
    (∃ body resp polls,
      env.fs.openFile f = true ∧ env.fs.readFile f = some body ∧
      env.create_stack
          { StackName := n, TemplateBody := body,
            Capabilities := ["CAPABILITY_IAM"] } = Except.ok resp ∧
      env.waitBehavior n = WaitOutcome.success polls ∧
      deploy_stack env n f
        = ([Event.fileOpen f, Event.fileRead f, Event.fileClose f,
            Event.clientConstruct,
            Event.createStack
              { StackName := n, TemplateBody := body,
                Capabilities := ["CAPABILITY_IAM"] }]
             ++ List.replicate polls (Event.statusQuery n)
             ++ [Event.consolePrint (successLine n)],
           Except.ok ())) := by
  by_cases ho : env.fs.openFile f = true
  · cases hr : env.fs.readFile f with
    | none =>
        refine Or.inr (Or.inl ⟨ho, rfl, ?_⟩)
        simp [deploy_stack, ho, hr]
    | some body =>
        cases hcs : env.create_stack
            { StackName := n, TemplateBody := body,
              Capabilities := ["CAPABILITY_IAM"] } with
        | error msg =>
            refine Or.inr (Or.inr (Or.inl ⟨body, msg, ho, rfl, hcs, ?_⟩))
            simp [deploy_stack, ho, hr, hcs]
        | ok resp =>
            cases hw : env.waitBehavior n with
            | failure polls msg =>
                refine Or.inr (Or.inr (Or.inr (Or.inl
                  ⟨body, resp, polls, msg, ho, rfl, hcs, rfl, ?_⟩)))
                simp [deploy_stack, ho, hr, hcs, hw]
            | success polls =>
                refine Or.inr (Or.inr (Or.inr (Or.inr
                  ⟨body, resp, polls, ho, rfl, hcs, rfl, ?_⟩)))
                simp [deploy_stack, ho, hr, hcs, hw]
  · refine Or.inl ⟨by simpa using ho, ?_⟩
    simp [deploy_stack, ho]

/-- Claim C2: whenever the local read of the template fails (the open fails
or the read raises), deploy_stack propagates a local I/O error and performs
zero remote calls: no client is constructed, no creation request is
submitted, and no status query is issued. -/
theorem deploy_stack_local_read_failure (env : CloudEnv) (n f : String)
    (h : env.fs.openFile f = false ∨ env.fs.readFile f = none) :
    (deploy_stack env n f).2 = Except.error (DeployError.ioError f) ∧
    Event.clientConstruct ∉ (deploy_stack env n f).1 ∧
    (∀ req, Event.createStack req ∉ (deploy_stack env n f).1) ∧
    (∀ m, Event.statusQuery m ∉ (deploy_stack env n f).1) := by
  rcases deploy_stack_cases env n f with ⟨ho, heq⟩ | ⟨ho, hr, heq⟩ |
    ⟨body, msg, ho, hr, hcs, heq⟩ |
    ⟨body, resp, polls, msg, ho, hr, hcs, hw, heq⟩ |
    ⟨body, resp, polls, ho, hr, hcs, hw, heq⟩
  · rw [heq]; simp
  · rw [heq]; simp
  · simp [ho, hr] at h
  · simp [ho, hr] at h
  · simp [ho, hr] at h

theorem deploy_stack_local_read_failure_witness :
    (deploy_stack noFileEnv "my-iac-stack" "cloudformation/main.yaml").2
      = Except.error (DeployError.ioError "cloudformation/main.yaml") :=
  (deploy_stack_local_read_failure noFileEnv "my-iac-stack"
    "cloudformation/main.yaml" (Or.inl rfl)).1

/-- Claim C3: when the remote service rejects the creation request,
deploy_stack fails with that rejection at the creation-request step and
never enters the wait: no status query appears in the trace. -/
theorem deploy_stack_reject_no_wait (env : CloudEnv) (n f body msg : String)
    (ho : env.fs.openFile f = true)
    (hr : env.fs.readFile f = some body)
    (hc : env.create_stack
        { StackName := n, TemplateBody := body,
          Capabilities := ["CAPABILITY_IAM"] } = Except.error msg) :
    (deploy_stack env n f).2
      = Except.error (DeployError.createRejected msg) ∧
    (∀ m, Event.statusQuery m ∉ (deploy_stack env n f).1) := by
  rcases deploy_stack_cases env n f with ⟨ho2, heq⟩ | ⟨ho2, hr2, heq⟩ |
    ⟨body2, msg2, ho2, hr2, hc2, heq⟩ |
    ⟨body2, resp, polls, msg2, ho2, hr2, hc2, hw, heq⟩ |
    ⟨body2, resp, polls, ho2, hr2, hc2, hw, heq⟩
  · rw [ho] at ho2; cases ho2
  · rw [hr] at hr2; cases hr2
  · rw [hr] at hr2; injection hr2 with hb; subst hb
    rw [hc] at hc2; injection hc2 with hm; subst hm
    rw [heq]; simp
  · rw [hr] at hr2; injection hr2 with hb; subst hb
    rw [hc] at hc2; cases hc2
  · rw [hr] at hr2; injection hr2 with hb; subst hb
    rw [hc] at hc2; cases hc2

theorem deploy_stack_reject_no_wait_witness :
    (deploy_stack rejectEnv "my-iac-stack" "cloudformation/main.yaml").2
      = Except.error (DeployError.createRejected "AlreadyExistsException") :=
  (deploy_stack_reject_no_wait rejectEnv "my-iac-stack"
    "cloudformation/main.yaml" "Resources" "AlreadyExistsException"
    rfl rfl rfl).1

/-- Claim C7: the stack identifier carried by the creation request and the
identifier the status queries are issued against are the same string, the
stack_name argument. -/
theorem deploy_stack_same_identifier (env : CloudEnv) (n f m : String)
    (req : CreateStackRequest)
    (hc : Event.createStack req ∈ (deploy_stack env n f).1)
    (hq : Event.statusQuery m ∈ (deploy_stack env n f).1) :
    req.StackName = n ∧ m = n := by
  rcases deploy_stack_cases env n f with ⟨ho, heq⟩ | ⟨ho, hr, heq⟩ |
    ⟨body, msg, ho, hr, hcs, heq⟩ |
    ⟨body, resp, polls, msg, ho, hr, hcs, hw, heq⟩ |
    ⟨body, resp, polls, ho, hr, hcs, hw, heq⟩
  · rw [heq] at hc; simp at hc
  · rw [heq] at hc; simp at hc
  · rw [heq] at hq; simp at hq
  · rw [heq] at hc hq
    simp [List.mem_replicate] at hc hq
    subst hc
    exact ⟨rfl, hq.2⟩
  · rw [heq] at hc hq
    simp [List.mem_replicate] at hc hq
    subst hc
    exact ⟨rfl, hq.2⟩

theorem deploy_stack_same_identifier_witness :
    sampleReq.StackName = "my-iac-stack" ∧
    "my-iac-stack" = "my-iac-stack" :=
  deploy_stack_same_identifier sampleEnv "my-iac-stack" "t" "my-iac-stack"
    sampleReq (by decide) (by decide)

/-- Claim C8: the template file handle is released unconditionally: on
every run, the trace contains a file-open event exactly when it contains
the matching file-close event (in particular on the path where the read
raises after a successful open). -/
theorem deploy_stack_handle_released (env : CloudEnv) (n f p : String) :
    Event.fileOpen p ∈ (deploy_stack env n f).1 ↔
    Event.fileClose p ∈ (deploy_stack env n f).1 := by
  rcases deploy_stack_cases env n f with ⟨ho, heq⟩ | ⟨ho, hr, heq⟩ |
    ⟨body, msg, ho, hr, hcs, heq⟩ |
    ⟨body, resp, polls, msg, ho, hr, hcs, hw, heq⟩ |
    ⟨body, resp, polls, ho, hr, hcs, hw, heq⟩
  · rw [heq]; simp
  · rw [heq]; simp
  · rw [heq]; simp
  · rw [heq]; simp [List.mem_replicate]
  · rw [heq]; simp [List.mem_replicate]

/-- Claim C4: at most one creation request is ever submitted, and any
submitted request carries exactly the given stack name, the template file
contents passed through unmodified, and the fixed capability flag
CAPABILITY_IAM, regardless of inputs. -/
theorem deploy_stack_request_contents (env : CloudEnv) (n f : String) :
    List.countP isCreateStack (deploy_stack env n f).1 ≤ 1 ∧
    (∀ req, Event.createStack req ∈ (deploy_stack env n f).1 →
      req.StackName = n ∧ env.fs.readFile f = some req.TemplateBody ∧
      req.Capabilities = ["CAPABILITY_IAM"]) := by
  rcases deploy_stack_cases env n f with ⟨ho, heq⟩ | ⟨ho, hr, heq⟩ |
    ⟨body, msg, ho, hr, hcs, heq⟩ |
    ⟨body, resp, polls, msg, ho, hr, hcs, hw, heq⟩ |
    ⟨body, resp, polls, ho, hr, hcs, hw, heq⟩
  · rw [heq]; simp
  · rw [heq]; simp [List.countP_cons, isCreateStack]
  · rw [heq]; simp [List.countP_cons, isCreateStack, hr]
  · rw [heq]
    simp [List.countP_append, List.countP_cons, isCreateStack,
      countP_replicate_self, List.mem_replicate, hr]
  · rw [heq]
    simp [List.countP_append, List.countP_cons, isCreateStack,
      countP_replicate_self, List.mem_replicate, hr]

theorem deploy_stack_request_contents_witness :
    sampleReq.StackName = "my-iac-stack" ∧
    sampleEnv.fs.readFile "t" = some sampleReq.TemplateBody ∧
    sampleReq.Capabilities = ["CAPABILITY_IAM"] :=
  (deploy_stack_request_contents sampleEnv "my-iac-stack" "t").2
    sampleReq (by decide)

/-- Claim C5: on a successful run the side effects are exactly one local
file read, one creation request, one or more status queries (given that
the waiter issues at least one poll), and one console message; no step is
ever repeated. -/
theorem deploy_stack_success_effects (env : CloudEnv) (n f : String)
    (h : (deploy_stack env n f).2 = Except.ok ())
    (hw0 : 0 < (env.waitBehavior n).polls) :
    List.countP isFileRead (deploy_stack env n f).1 = 1 ∧
    List.countP isCreateStack (deploy_stack env n f).1 = 1 ∧
    1 ≤ List.countP isStatusQuery (deploy_stack env n f).1 ∧
    List.countP isConsolePrint (deploy_stack env n f).1 = 1 := by
  rcases deploy_stack_cases env n f with ⟨ho, heq⟩ | ⟨ho, hr, heq⟩ |
    ⟨body, msg, ho, hr, hcs, heq⟩ |
    ⟨body, resp, polls, msg, ho, hr, hcs, hw, heq⟩ |
    ⟨body, resp, polls, ho, hr, hcs, hw, heq⟩
  · rw [heq] at h; simp at h
  · rw [heq] at h; simp at h
  · rw [heq] at h; simp at h
  · rw [heq] at h; simp at h
  · rw [heq]
    rw [hw] at hw0
    simp only [WaitOutcome.polls] at hw0
    simp [List.countP_append, List.countP_cons, isFileRead, isCreateStack,
      isStatusQuery, isConsolePrint, countP_replicate_self]
    omega

theorem deploy_stack_success_effects_witness :
    List.countP isFileRead (deploy_stack sampleEnv "my-iac-stack" "t").1 = 1 ∧
    List.countP isCreateStack (deploy_stack sampleEnv "my-iac-stack" "t").1 = 1 ∧
    1 ≤ List.countP isStatusQuery (deploy_stack sampleEnv "my-iac-stack" "t").1 ∧
    List.countP isConsolePrint (deploy_stack sampleEnv "my-iac-stack" "t").1 = 1 :=
  deploy_stack_success_effects sampleEnv "my-iac-stack" "t" rfl (by decide)

/-- Claim C6: on success exactly one console line is emitted, its text is
the success line built from the given stack name, and that text contains
the stack name as a substring. -/
theorem deploy_stack_success_message (env : CloudEnv) (n f : String)
    (h : (deploy_stack env n f).2 = Except.ok ()) :
    List.filter isConsolePrint (deploy_stack env n f).1
      = [Event.consolePrint (successLine n)] ∧
    (∃ pre post, successLine n = pre ++ n ++ post) := by
  refine ⟨?_, ⟨"Stack ", " created successfully.", rfl⟩⟩
  rcases deploy_stack_cases env n f with ⟨ho, heq⟩ | ⟨ho, hr, heq⟩ |
    ⟨body, msg, ho, hr, hcs, heq⟩ |
    ⟨body, resp, polls, msg, ho, hr, hcs, hw, heq⟩ |
    ⟨body, resp, polls, ho, hr, hcs, hw, heq⟩
  · rw [heq] at h; simp at h
  · rw [heq] at h; simp at h
  · rw [heq] at h; simp at h
  · rw [heq] at h; simp at h
  · rw [heq]
    simp [List.filter_append, List.filter_cons, isConsolePrint,
      filter_replicate_not]

theorem deploy_stack_success_message_witness :
    List.filter isConsolePrint (deploy_stack sampleEnv "my-iac-stack" "t").1
      = [Event.consolePrint (successLine "my-iac-stack")] :=
  (deploy_stack_success_message sampleEnv "my-iac-stack" "t" rfl).1

/-- Claim C1: the success line is printed only after the wait returns with
a success terminal state: on any error the result is that error and no
console line appears in the trace; any console line implies the run
succeeded; and on success the trace ends with the success line, placed
after all the status queries of the wait, with no console line before
it. -/
theorem deploy_stack_success_line_temporal (env : CloudEnv) (n f : String) :
    (∀ e l, (deploy_stack env n f).2 = Except.error e →
      Event.consolePrint l ∉ (deploy_stack env n f).1) ∧
    (∀ l, Event.consolePrint l ∈ (deploy_stack env n f).1 →
      (deploy_stack env n f).2 = Except.ok ()) ∧
    ((deploy_stack env n f).2 = Except.ok () →
      ∃ pre polls, env.waitBehavior n = WaitOutcome.success polls ∧
        (deploy_stack env n f).1
          = pre ++ List.replicate polls (Event.statusQuery n)
              ++ [Event.consolePrint (successLine n)] ∧
        (∀ l, Event.consolePrint l ∉ pre)) := by
  rcases deploy_stack_cases env n f with ⟨ho, heq⟩ | ⟨ho, hr, heq⟩ |
    ⟨body, msg, ho, hr, hcs, heq⟩ |
    ⟨body, resp, polls, msg, ho, hr, hcs, hw, heq⟩ |
    ⟨body, resp, polls, ho, hr, hcs, hw, heq⟩
  · rw [heq]; refine ⟨?_, ?_, ?_⟩ <;> simp
  · rw [heq]; refine ⟨?_, ?_, ?_⟩ <;> simp
  · rw [heq]; refine ⟨?_, ?_, ?_⟩ <;> simp
  · rw [heq]; refine ⟨?_, ?_, ?_⟩ <;> simp [List.mem_replicate]
  · rw [heq]
    refine ⟨?_, ?_, ?_⟩
    · intro e l hcontra
      simp at hcontra
    · intro l _
      rfl
    · intro _
      refine ⟨[Event.fileOpen f, Event.fileRead f, Event.fileClose f,
        Event.clientConstruct,
        Event.createStack
          { StackName := n, TemplateBody := body,
            Capabilities := ["CAPABILITY_IAM"] }], polls, hw, rfl, ?_⟩
      intro l
      simp

theorem deploy_stack_success_line_temporal_witness :
    ∃ pre polls,
      sampleEnv.waitBehavior "my-iac-stack" = WaitOutcome.success polls ∧
      (deploy_stack sampleEnv "my-iac-stack" "t").1
        = pre ++ List.replicate polls (Event.statusQuery "my-iac-stack")
            ++ [Event.consolePrint (successLine "my-iac-stack")] ∧
      (∀ l, Event.consolePrint l ∉ pre) :=
  (deploy_stack_success_line_temporal sampleEnv "my-iac-stack" "t").2.2 rfl

/-- Claim C9: the entry-point block performs exactly one invocation of
deploy_stack, with the hard-coded constants my-iac-stack and
cloudformation/main.yaml, and exposes no configurable flags. -/
theorem main_block_hardcoded (env : CloudEnv) :
    main_invocations.length = 1 ∧
    main_invocations = [("my-iac-stack", "cloudformation/main.yaml")] ∧
    main_block env
      = deploy_stack env "my-iac-stack" "cloudformation/main.yaml" :=
  ⟨rfl, rfl, rfl⟩

/-- Environment identical to env except that the payload of every accepted
creation response is replaced through g; rejections are unchanged. -/
def withCreateResp (env : CloudEnv)
    (g : CreateStackRequest → CreateStackResponse) : CloudEnv :=
  { env with
    create_stack := fun req =>
      Except.map (fun _ => g req) (env.create_stack req) }

/-- Claim C10: deploy_stack discards the remote creation response and
returns no value: replacing the payload of every accepted creation
response by an arbitrary one changes neither the trace nor the result,
and the overall result is either the unit value or an error. -/
theorem deploy_stack_ignores_response (env : CloudEnv)
    (g : CreateStackRequest → CreateStackResponse) (n f : String) :
    deploy_stack (withCreateResp env g) n f = deploy_stack env n f ∧
    ((deploy_stack env n f).2 = Except.ok () ∨
      ∃ e, (deploy_stack env n f).2 = Except.error e) := by
  constructor
  · by_cases ho : env.fs.openFile f = true
    · cases hr : env.fs.readFile f with
      | none => simp [deploy_stack, withCreateResp, ho, hr]
      | some body =>
          cases hcs : env.create_stack
              { StackName := n, TemplateBody := body,
                Capabilities := ["CAPABILITY_IAM"] } with
          | error msg =>
              simp [deploy_stack, withCreateResp, ho, hr, hcs, Except.map]
          | ok resp =>
              cases hw : env.waitBehavior n with
              | failure p m =>
                  simp [deploy_stack, withCreateResp, ho, hr, hcs, hw,
                    Except.map]
              | success p =>
                  simp [deploy_stack, withCreateResp, ho, hr, hcs, hw,
                    Except.map]
    · simp [deploy_stack, withCreateResp, ho]
  · rcases deploy_stack_cases env n f with ⟨ho, heq⟩ | ⟨ho, hr, heq⟩ |
      ⟨body, msg, ho, hr, hcs, heq⟩ |
      ⟨body, resp, polls, msg, ho, hr, hcs, hw, heq⟩ |
      ⟨body, resp, polls, ho, hr, hcs, hw, heq⟩
    · rw [heq]; exact Or.inr ⟨_, rfl⟩
    · rw [heq]; exact Or.inr ⟨_, rfl⟩
    · rw [heq]; exact Or.inr ⟨_, rfl⟩
    · rw [heq]; exact Or.inr ⟨_, rfl⟩
    · rw [heq]; exact Or.inl rfl

end IacDeploy
